import Mathlib

/-
Verification of the SolarScan bridge server (src/server.js) against its
specification.  The JavaScript source is shallowly embedded: JSON-like
runtime values become the inductive type `JVal`, JavaScript numbers become
`JNum` (NaN / signed infinity / an exact rational idealising a finite
double — no arithmetic is ever performed on these values by the bridge, so
the exact-rational idealisation is faithful for parsing, truthiness and
pass-through), and the callback/promise machinery of `runPython` becomes an
explicit event-trace machine.  All definitions are executable.
-/

attribute [local semireducible] Rat.mul Rat.inv Rat.add Rat.sub Rat.ofScientific

/- JavaScript number: NaN, ±Infinity, or a finite value. -/
inductive JNum where
  | nan
  | inf (pos : Bool)
  | val (q : ℚ)
deriving DecidableEq

/- JavaScript runtime value as relevant to server.js: the JSON values plus
`undefined` (absent properties). Objects are insertion-ordered field lists. -/
inductive JVal where
  | null
  | undefined
  | bool (b : Bool)
  | num (n : JNum)
  | str (s : String)
  | arr (elems : List JVal)
  | obj (fields : List (String × JVal))

/- Whitespace recognised by JavaScript String.trim / Number coercion. -/
def jsWsChar (c : Char) : Bool :=
  c = ' ' || c = '\t' || c = '\n' || c = '\r' || c = '\x0b' || c = '\x0c' ||
  c = '\u00A0' || c = '\uFEFF'

def trimChars (cs : List Char) : List Char :=
  ((cs.dropWhile jsWsChar).reverse.dropWhile jsWsChar).reverse

/- JavaScript String.prototype.trim, used as `stdout.trim()` in runPython. -/
def jsTrim (s : String) : String :=
  String.mk (trimChars s.data)

def digitVal (c : Char) : Option Nat :=
  if c.isDigit then some (c.toNat - 48) else none

/- Splits a character list into its leading run of decimal digits and the rest. -/
def takeDigits : List Char → List Nat × List Char
  | [] => ([], [])
  | c :: cs =>
    match digitVal c with
    | some d => let p := takeDigits cs ; (d :: p.1, p.2)
    | none => ([], c :: cs)

def digitsToNat (ds : List Nat) : Nat :=
  ds.foldl (fun a d => a * 10 + d) 0

/- Consumes an optional sign character; `true` means non-negative. -/
def takeSign : List Char → Bool × List Char
  | '-' :: cs => (false, cs)
  | '+' :: cs => (true, cs)
  | cs => (true, cs)

/- Drops the literal `ls` from the front of `cs`, if present. -/
def dropLit : List Char → List Char → Option (List Char)
  | [], cs => some cs
  | l :: ls, c :: cs => if c = l then dropLit ls cs else none
  | _ :: _, [] => none

/- JavaScript parseFloat on a character list: skip whitespace, optional sign,
then the longest decimal-literal (or Infinity) front; NaN when none. -/
def parseFloatChars (cs0 : List Char) : JNum :=
  let cs1 := cs0.dropWhile jsWsChar
  let sp := takeSign cs1
  match dropLit "Infinity".data sp.2 with
  | some _ => .inf sp.1
  | none =>
    let ip := takeDigits sp.2
    let fp := match ip.2 with
      | '.' :: cs => takeDigits cs
      | _ => ([], ip.2)
    if ip.1.isEmpty && fp.1.isEmpty then .nan
    else
      let e : Int :=
        match fp.2 with
        | 'e' :: cs | 'E' :: cs =>
          let esp := takeSign cs
          let eds := takeDigits esp.2
          if eds.1.isEmpty then 0
          else if esp.1 then (digitsToNat eds.1 : Int) else -(digitsToNat eds.1 : Int)
        | _ => 0
      let mant : ℚ :=
        (digitsToNat ip.1 : ℚ) + (digitsToNat fp.1 : ℚ) / (10 : ℚ) ^ fp.1.length
      let v : ℚ := mant * (10 : ℚ) ^ e
      .val (if sp.1 then v else -v)

def parseFloatStr (s : String) : JNum := parseFloatChars s.data

/- Decimal digits of the fractional part of a rational in [0,1), fuelled.
Every number reaching this function in the bridge has a terminating decimal
expansion, so the fuel is never exhausted in practice. -/
def fracDigitsStr : Nat → ℚ → String
  | 0, _ => ""
  | fuel + 1, q =>
    if q = 0 then ""
    else
      let q10 := q * 10
      let d : Nat := (⌊q10⌋).toNat
      Nat.repr d ++ fracDigitsStr fuel (q10 - (d : ℚ))

def ratToStringNN (q : ℚ) : String :=
  let ip : Nat := (⌊q⌋).toNat
  let fp : ℚ := q - (ip : ℚ)
  if fp = 0 then Nat.repr ip else Nat.repr ip ++ "." ++ fracDigitsStr 400 fp

/- JavaScript Number → String conversion (plain decimal form; the bridge only
ever stringifies small plain numbers, where this agrees with JS). -/
def jnumToString : JNum → String
  | .nan => "NaN"
  | .inf true => "Infinity"
  | .inf false => "-Infinity"
  | .val q => if q < 0 then "-" ++ ratToStringNN (-q) else ratToStringNN q

mutual
/- JavaScript abstract ToString on values, as used by template literals and
by parseFloat argument coercion. -/
def jsToString : JVal → String
  | .null => "null"
  | .undefined => "undefined"
  | .bool true => "true"
  | .bool false => "false"
  | .num n => jnumToString n
  | .str s => s
  | .arr xs => String.intercalate "," (jsToStringItems xs)
  | .obj _ => "[object Object]"

/- Array.prototype.join element stringification: null/undefined become "". -/
def jsToStringItems : List JVal → List String
  | [] => []
  | x :: xs =>
    (match x with
     | .null => ""
     | .undefined => ""
     | v => jsToString v) :: jsToStringItems xs
end

/- parseFloat applied to an arbitrary value: the argument is coerced to a
string first, as in JavaScript. -/
def jsParseFloat (v : JVal) : JNum := parseFloatStr (jsToString v)

def hexVal (c : Char) : Option Nat :=
  if c.isDigit then some (c.toNat - 48)
  else if 'a' ≤ c && c ≤ 'f' then some (c.toNat - 87)
  else if 'A' ≤ c && c ≤ 'F' then some (c.toNat - 55)
  else none

def radixVal (radix : Nat) (cs : List Char) : Option Nat :=
  cs.foldl
    (fun acc c =>
      match acc, hexVal c with
      | some a, some d => if d < radix then some (a * radix + d) else none
      | _, _ => none)
    (some 0)

def radixNum (radix : Nat) (cs : List Char) : JNum :=
  if cs.isEmpty then .nan
  else match radixVal radix cs with
    | some n => .val n
    | none => .nan

/- Whole-string decimal literal (for Number() coercion): digits [. digits]
[exponent] or . digits [exponent], consuming the entire input. -/
def parseDecFull (cs : List Char) : Option ℚ :=
  let ip := takeDigits cs
  let fp := match ip.2 with
    | '.' :: cs => takeDigits cs
    | _ => ([], ip.2)
  if ip.1.isEmpty && fp.1.isEmpty then none
  else
    let mant : ℚ :=
      (digitsToNat ip.1 : ℚ) + (digitsToNat fp.1 : ℚ) / (10 : ℚ) ^ fp.1.length
    match fp.2 with
    | [] => some mant
    | 'e' :: cs | 'E' :: cs =>
      let esp := takeSign cs
      let eds := takeDigits esp.2
      if eds.1.isEmpty || !eds.2.isEmpty then none
      else
        let e : Int := if esp.1 then (digitsToNat eds.1 : Int) else -(digitsToNat eds.1 : Int)
        some (mant * (10 : ℚ) ^ e)
    | _ => none

/- JavaScript Number() applied to a string: trim, empty is 0, otherwise the
whole string must be a numeric literal (decimal, Infinity, hex/octal/binary). -/
def strToNumberChars (cs0 : List Char) : JNum :=
  let cs := trimChars cs0
  if cs.isEmpty then .val 0
  else
    match cs with
    | '0' :: 'x' :: rest => radixNum 16 rest
    | '0' :: 'X' :: rest => radixNum 16 rest
    | '0' :: 'o' :: rest => radixNum 8 rest
    | '0' :: 'O' :: rest => radixNum 8 rest
    | '0' :: 'b' :: rest => radixNum 2 rest
    | '0' :: 'B' :: rest => radixNum 2 rest
    | _ =>
      let sp := takeSign cs
      match dropLit "Infinity".data sp.2 with
      | some [] => .inf sp.1
      | some _ => .nan
      | none =>
        match parseDecFull sp.2 with
        | some q => .val (if sp.1 then q else -q)
        | none => .nan

/- JavaScript abstract ToNumber, as used by isNaN coercion. -/
def jsToNumber : JVal → JNum
  | .num n => n
  | .undefined => .nan
  | .null => .val 0
  | .bool true => .val 1
  | .bool false => .val 0
  | .str s => strToNumberChars s.data
  | .arr xs => strToNumberChars (jsToString (.arr xs)).data
  | .obj fs => strToNumberChars (jsToString (.obj fs)).data

def JNum.isNaN : JNum → Bool
  | .nan => true
  | _ => false

/- JavaScript global isNaN: coerce to number, test for NaN. -/
def jsIsNaN (v : JVal) : Bool := (jsToNumber v).isNaN

/- JavaScript truthiness. -/
def truthy : JVal → Bool
  | .null => false
  | .undefined => false
  | .bool b => b
  | .num .nan => false
  | .num (.inf _) => true
  | .num (.val q) => if q = 0 then false else true
  | .str s => !s.data.isEmpty
  | .arr _ => true
  | .obj _ => true

def lookupField : List (String × JVal) → String → Option JVal
  | [], _ => none
  | p :: fs, key => if p.1 = key then some p.2 else lookupField fs key

/- Property read `v[key]`; absent properties give undefined.  Array reads
support canonical numeric indices only. -/
def jsGetField (v : JVal) (key : String) : JVal :=
  match v with
  | .obj fs => (lookupField fs key).getD .undefined
  | .arr xs =>
    match key.toNat? with
    | some i => if Nat.repr i = key then (xs.get? i).getD .undefined else .undefined
    | none => .undefined
  | _ => .undefined

/- Property write on an object field list: overwrite in place when the key
exists (JavaScript keeps the original insertion position), else append. -/
def setField (fs : List (String × JVal)) (key : String) (v : JVal) : List (String × JVal) :=
  if fs.any (fun p => p.1 = key) then
    fs.map (fun p => if p.1 = key then (key, v) else p)
  else fs ++ [(key, v)]

def keysOf (fs : List (String × JVal)) : List String := fs.map Prod.fst

/- Nullish coalescing `a ?? b`. -/
def nullish (a b : JVal) : JVal :=
  match a with
  | .null => b
  | .undefined => b
  | v => v

/- Logical OR `a || b` on values. -/
def jsOr (a b : JVal) : JVal := if truthy a then a else b

/- Own enumerable entries of a value for object spread `{...x}`; spread of an
array contributes its indices as string keys. -/
def spreadSource : JVal → List (String × JVal)
  | .obj fs => fs
  | .arr xs => xs.enum.map (fun p => (Nat.repr p.1, p.2))
  | _ => []

def applySpread (base : List (String × JVal)) (src : List (String × JVal)) :
    List (String × JVal) :=
  src.foldl (fun acc p => setField acc p.1 p.2) base

/- server.js normalizeOne.  Primitives pass through (`!x || typeof x !==
"object"`); for objects and arrays the literal lists the canonical fields
first and then spreads the raw item over them, so raw fields overwrite the
canonical ones.  `Date.now()` is passed in as `now`. -/
def normBase (now : Nat) (x : JVal) : List (String × JVal) :=
  [("id", nullish (jsGetField x "id") (nullish (jsGetField x "sub_id")
      (nullish (jsGetField x "subId") (.str ("temp_" ++ Nat.repr now))))),
   ("lat", .num (jsParseFloat (nullish (jsGetField x "lat") (jsGetField x "latitude")))),
   ("lon", .num (jsParseFloat (nullish (jsGetField x "lon")
      (nullish (jsGetField x "lng") (jsGetField x "longitude"))))),
   ("raio_m", .num (jsParseFloat (nullish (jsGetField x "raio_m")
      (nullish (jsGetField x "raio")
        (nullish (jsGetField x "radius_m") (.num (.val 300)))))))]

def normalizeOne (now : Nat) (x : JVal) : JVal :=
  match x with
  | .obj _ | .arr _ => .obj (applySpread (normBase now x) (spreadSource x))
  | v => v

/- server.js normalizePayload. -/
def normalizePayload (now : Nat) (payload : JVal) : JVal :=
  match payload with
  | .arr xs => .arr (xs.map (normalizeOne now))
  | v => normalizeOne now v

/- JSON whitespace (RFC 8259): space, tab, line feed, carriage return. -/
def skipJsonWs (cs : List Char) : List Char :=
  cs.dropWhile (fun c => c = ' ' || c = '\t' || c = '\n' || c = '\r')

def parseHex4 (cs : List Char) : Option (Nat × List Char) :=
  match cs with
  | a :: b :: c :: d :: rest =>
    match hexVal a, hexVal b, hexVal c, hexVal d with
    | some x, some y, some z, some w => some (((x * 16 + y) * 16 + z) * 16 + w, rest)
    | _, _, _, _ => none
  | _ => none

/- Body of a JSON string after the opening quote: returns the decoded
characters and the remainder after the closing quote.  Escapes follow the
JSON grammar; unescaped control characters are rejected.  (A \u escape is
decoded as a single code point; the bridge never exercises surrogate pairs.) -/
def parseStrBody : Nat → List Char → Option (List Char × List Char)
  | 0, _ => none
  | _, [] => none
  | fuel + 1, c :: rest =>
    if c = '"' then some ([], rest)
    else if c = '\\' then
      match rest with
      | [] => none
      | e :: rest2 =>
        let esc : Option (Char × List Char) :=
          if e = '"' then some ('"', rest2)
          else if e = '\\' then some ('\\', rest2)
          else if e = '/' then some ('/', rest2)
          else if e = 'b' then some ('\x08', rest2)
          else if e = 'f' then some ('\x0c', rest2)
          else if e = 'n' then some ('\n', rest2)
          else if e = 'r' then some ('\r', rest2)
          else if e = 't' then some ('\t', rest2)
          else if e = 'u' then
            match parseHex4 rest2 with
            | some p => some (Char.ofNat p.1, p.2)
            | none => none
          else none
        match esc with
        | some (ch, rest3) =>
          match parseStrBody fuel rest3 with
          | some (chars, rem) => some (ch :: chars, rem)
          | none => none
        | none => none
    else if c.toNat < 32 then none
    else
      match parseStrBody fuel rest with
      | some (chars, rem) => some (c :: chars, rem)
      | none => none

/- JSON number literal (strict RFC 8259 grammar, exact rational value). -/
def parseJsonNumber (cs : List Char) : Option (ℚ × List Char) :=
  let sp : Bool × List Char := match cs with
    | '-' :: rest => (true, rest)
    | _ => (false, cs)
  let ipOpt : Option (List Nat × List Char) :=
    match sp.2 with
    | '0' :: rest => some ([0], rest)
    | c :: _ => if (digitVal c).isSome then some (takeDigits sp.2) else none
    | [] => none
  match ipOpt with
  | none => none
  | some (ids, cs2) =>
    let fpOpt : Option (List Nat × List Char) :=
      match cs2 with
      | '.' :: rest =>
        match takeDigits rest with
        | ([], _) => none
        | p => some p
      | _ => some ([], cs2)
    match fpOpt with
    | none => none
    | some (fds, cs3) =>
      let expOpt : Option (Int × List Char) :=
        match cs3 with
        | 'e' :: rest | 'E' :: rest =>
          let esp := takeSign rest
          match takeDigits esp.2 with
          | ([], _) => none
          | (eds, cs4) =>
            some ((if esp.1 then (digitsToNat eds : Int) else -(digitsToNat eds : Int)), cs4)
        | _ => some (0, cs3)
      match expOpt with
      | none => none
      | some (e, cs5) =>
        let mant : ℚ := (digitsToNat ids : ℚ) + (digitsToNat fds : ℚ) / (10 : ℚ) ^ fds.length
        let v : ℚ := mant * (10 : ℚ) ^ e
        some ((if sp.1 then -v else v), cs5)

mutual
/- JSON value parser (fuelled; fuel bounds nesting depth).  Expects the
input to start at a value; returns the value and the unconsumed remainder. -/
def parseVal : Nat → List Char → Option (JVal × List Char)
  | 0, _ => none
  | fuel + 1, cs =>
    match cs with
    | [] => none
    | c :: rest =>
      if c = '{' then
        match skipJsonWs rest with
        | '}' :: rest2 => some (.obj [], rest2)
        | cs1 =>
          match parseMembers fuel cs1 with
          | some (fs, rem) => some (.obj (applySpread [] fs), rem)
          | none => none
      else if c = '[' then
        match skipJsonWs rest with
        | ']' :: rest2 => some (.arr [], rest2)
        | cs1 =>
          match parseItems fuel cs1 with
          | some (xs, rem) => some (.arr xs, rem)
          | none => none
      else if c = '"' then
        match parseStrBody (rest.length + 1) rest with
        | some (chars, rem) => some (.str (String.mk chars), rem)
        | none => none
      else
        match dropLit "true".data cs with
        | some rem => some (.bool true, rem)
        | none =>
          match dropLit "false".data cs with
          | some rem => some (.bool false, rem)
          | none =>
            match dropLit "null".data cs with
            | some rem => some (.null, rem)
            | none =>
              match parseJsonNumber cs with
              | some (q, rem) => some (.num (.val q), rem)
              | none => none

/- Comma-separated array elements up to the closing bracket. -/
def parseItems : Nat → List Char → Option (List JVal × List Char)
  | 0, _ => none
  | fuel + 1, cs =>
    match parseVal fuel cs with
    | none => none
    | some (v, rem) =>
      match skipJsonWs rem with
      | ',' :: rest =>
        match parseItems fuel (skipJsonWs rest) with
        | some (vs, rem2) => some (v :: vs, rem2)
        | none => none
      | ']' :: rest => some ([v], rest)
      | _ => none

/- Comma-separated object members up to the closing brace, in textual order
(duplicate keys are resolved by the caller as JavaScript does). -/
def parseMembers : Nat → List Char → Option (List (String × JVal) × List Char)
  | 0, _ => none
  | fuel + 1, cs =>
    match cs with
    | '"' :: rest =>
      match parseStrBody (rest.length + 1) rest with
      | none => none
      | some (kcs, rem) =>
        match skipJsonWs rem with
        | ':' :: rest2 =>
          match parseVal fuel (skipJsonWs rest2) with
          | none => none
          | some (v, rem2) =>
            match skipJsonWs rem2 with
            | ',' :: rest3 =>
              match parseMembers fuel (skipJsonWs rest3) with
              | some (fs, rem3) => some ((String.mk kcs, v) :: fs, rem3)
              | none => none
            | '}' :: rest3 => some ([(String.mk kcs, v)], rest3)
            | _ => none
        | _ => none
    | _ => none
end

/- JSON.parse: whole input must be one value surrounded by JSON whitespace;
an Option result models success versus a thrown SyntaxError. -/
def jsonParse (s : String) : Option JVal :=
  match parseVal (s.data.length + 1) (skipJsonWs s.data) with
  | some (v, rem) => if (skipJsonWs rem).isEmpty then some v else none
  | none => none

/- String.prototype.indexOf for a single character, as an optional index. -/
def charIndexOf (cs : List Char) (c : Char) : Option Nat :=
  cs.findIdx? (fun x => x = c)

def charLastIndexOf (cs : List Char) (c : Char) : Option Nat :=
  match cs.reverse.findIdx? (fun x => x = c) with
  | some i => some (cs.length - 1 - i)
  | none => none

/- server.js extractJSON: try a direct parse; on failure, parse the inclusive
substring from the first opening brace to the last closing brace when the
latter comes strictly after the former; otherwise null (here: none). -/
def extractJSON (raw : String) : Option JVal :=
  match jsonParse raw with
  | some v => some v
  | none =>
    match charIndexOf raw.data '{', charLastIndexOf raw.data '}' with
    | some f, some l =>
      if f < l then jsonParse (String.mk ((raw.data.drop f).take (l - f + 1)))
      else none
    | _, _ => none

/- Timeout budget of runPython, in milliseconds (server.js line 75). -/
def TIMEOUT_MS : Nat := 120000

/- Reasons runPython can reject, mirroring the four reject objects in the
source: the timeout object, a spawn error, the invalid-JSON object and the
logical-error object. -/
inductive RejectReason where
  | timeoutKill
  | spawnFail (message : String)
  | invalidJson (code : Option Int) (raw : String) (stde : String)
  | logical (code : Option Int) (errVal : JVal) (parsed : JVal) (stde : String)

/- Final state of the runPython promise. -/
inductive Settlement where
  | resolved (parsed : JVal) (stde : String)
  | rejected (r : RejectReason)

/- JavaScript falsiness of the extractor result seen by `if (!parsed)` in the
close handler: a null result (here: none) and falsy documents are rejected. -/
def jsFalsyOpt : Option JVal → Bool
  | none => true
  | some v => !truthy v

/- Strict check `parsed.ok === true`. -/
def okFlag (v : JVal) : Bool :=
  match jsGetField v "ok" with
  | .bool true => true
  | _ => false

/- Body of the close-event callback of runPython (server.js lines 85-117).
The exit code is an Option because Node reports null for a killed child.
The catch clause of the callback is unreachable in this model because every
operation in the body is total. -/
def closeHandler (code : Option Int) (stdout stde : String) : Settlement :=
  match extractJSON (jsTrim stdout) with
  | none => .rejected (.invalidJson code stdout stde)
  | some parsed =>
    if truthy parsed = false then .rejected (.invalidJson code stdout stde)
    else if code = some 0 ∧ okFlag parsed = true then .resolved parsed stde
    else .rejected (.logical code
      (jsOr (jsGetField parsed "error") (.str "Python logical error")) parsed stde)

/- Events that can settle the runPython promise: the 120 s timer firing, the
spawn-error event, and the child close event. -/
inductive PEvent where
  | timerFire
  | procError (message : String)
  | procClose (code : Option Int)

structure PromiseState where
  settled : Option Settlement
  timerActive : Bool

/- A promise keeps its first settlement; later resolve/reject calls are
ignored. -/
def firstSettle (cur : Option Settlement) (s : Settlement) : Option Settlement :=
  match cur with
  | some s0 => some s0
  | none => some s

/- One callback firing.  The error and close handlers call clearTimeout, so
they deactivate the timer; a cleared timer firing is a no-op. -/
def stepEvent (stdout stde : String) (st : PromiseState) (e : PEvent) : PromiseState :=
  match e with
  | .timerFire =>
    if st.timerActive then
      { settled := firstSettle st.settled (.rejected .timeoutKill), timerActive := false }
    else st
  | .procError m =>
    { settled := firstSettle st.settled (.rejected (.spawnFail m)), timerActive := false }
  | .procClose code =>
    { settled := firstSettle st.settled (closeHandler code stdout stde), timerActive := false }

/- Settlement of the runPython promise after a sequence of callback firings,
with `stdout`/`stde` the stream contents accumulated by the data handlers. -/
def runPythonEvents (stdout stde : String) (evs : List PEvent) : Option Settlement :=
  (evs.foldl (stepEvent stdout stde) ⟨none, true⟩).settled

/- Event order of an invocation whose child would close `closeTimeMs` after
spawn: when that exceeds the budget, the timer fires first and the kill makes
the eventual close report a null exit code; otherwise only close fires (its
clearTimeout stops the timer). -/
def invocationTrace (closeTimeMs : Nat) (exitCode : Option Int) : List PEvent :=
  if closeTimeMs > TIMEOUT_MS then [.timerFire, .procClose none]
  else [.procClose exitCode]

/- Values thrown or rejected into the catch clause of the /scan handler:
either a thrown Error (validation) or a runPython rejection. -/
inductive CaughtErr where
  | thrown (message : String)
  | rejectedWith (r : RejectReason)

def optCodeToJVal : Option Int → JVal
  | some i => .num (.val i)
  | none => .null

/- The rejection value as a JSON-serialisable object (used only as the last
fallback of the details chain).  An Error object has no enumerable own
properties, so it serialises to {}; this branch is unreachable for the
nonempty messages the server produces. -/
def rejectObj : RejectReason → JVal
  | .timeoutKill =>
    .obj [("code", .str "TIMEOUT"), ("error", .str "Python script timed out after 120s")]
  | .spawnFail _ => .obj []
  | .invalidJson code raw stde =>
    .obj [("code", optCodeToJVal code), ("error", .str "Invalid JSON output from Python"),
          ("raw", .str raw), ("stderr", .str stde)]
  | .logical code e parsed stde =>
    .obj [("code", optCodeToJVal code), ("error", e), ("parsed", parsed),
          ("stderr", .str stde)]

/- Property err.error of the caught value. -/
def errProp : CaughtErr → JVal
  | .thrown _ => .undefined
  | .rejectedWith .timeoutKill => .str "Python script timed out after 120s"
  | .rejectedWith (.spawnFail _) => .undefined
  | .rejectedWith (.invalidJson _ _ _) => .str "Invalid JSON output from Python"
  | .rejectedWith (.logical _ e _ _) => e

/- Property err.stderr of the caught value. -/
def stderrProp : CaughtErr → JVal
  | .rejectedWith (.invalidJson _ _ s) => .str s
  | .rejectedWith (.logical _ _ _ s) => .str s
  | _ => .undefined

/- Property err.message of the caught value (Error instances only). -/
def messageProp : CaughtErr → JVal
  | .thrown m => .str m
  | .rejectedWith (.spawnFail m) => .str m
  | _ => .undefined

def selfJVal : CaughtErr → JVal
  | .thrown _ => .obj []
  | .rejectedWith r => rejectObj r

/- HTTP response of POST /scan: 200 with { ok: true, data } on success, 500
with { ok: false, error, details } on any failure. -/
inductive ScanResponse where
  | success (data : JVal)
  | failure (error : JVal) (details : JVal)

/- The catch clause of the /scan handler (server.js lines 157-164):
`error: err.error || "Internal Server Error"` and
`details: err.stderr || err.message || err`. -/
def catchToResponse (e : CaughtErr) : ScanResponse :=
  .failure (jsOr (errProp e) (.str "Internal Server Error"))
    (jsOr (stderrProp e) (jsOr (messageProp e) (selfJVal e)))

/- Coercion `Array.isArray(payload) ? payload : [payload]`. -/
def toBatch : JVal → List JVal
  | .arr xs => xs
  | v => [v]

/- Validation predicate of the loop: `isNaN(item.lat) || isNaN(item.lon)`. -/
def badCoords (item : JVal) : Bool :=
  jsIsNaN (jsGetField item "lat") || jsIsNaN (jsGetField item "lon")

/- The POST /scan handler (server.js lines 129-165).  `worker` abstracts
`runPython` as a function from the payload to the settlement of its promise;
the second component counts how many worker invocations were performed.
The console logging of short stderr has no semantic effect and is omitted. -/
def scanHandler (now : Nat) (worker : JVal → Settlement) (body : JVal) :
    ScanResponse × Nat :=
  let payload := normalizePayload now body
  let arr := toBatch payload
  if arr.length = 0 then (catchToResponse (.thrown "Payload vazio"), 0)
  else
    match arr.find? badCoords with
    | some item =>
      (catchToResponse
        (.thrown ("Coordenadas inválidas para ID: " ++ jsToString (jsGetField item "id"))), 0)
    | none =>
      match worker payload with
      | .resolved parsed _ => (.success parsed, 1)
      | .rejected r => (catchToResponse (.rejectedWith r), 1)


/- Concrete item whose raw lat is a numeric string: exposes that the spread
in normalizeOne puts the raw fields after the canonical ones. -/
def cexItem : JVal := .obj [("id", .str "a"), ("lat", .str "12.5"), ("lon", .num (.val 1))]


/-
Evaluation checks of the embedding on concrete inputs.
-/

example : jsonParse "\x7b\"ok\":true,\"x\":1\x7d" =
    some (.obj [("ok", .bool true), ("x", .num (.val 1))]) := rfl
example : extractJSON "[warn] loading...\n\x7b\"ok\":true,\"x\":1\x7d\n" =
    some (.obj [("ok", .bool true), ("x", .num (.val 1))]) := rfl
example : extractJSON "no braces here" = none := rfl
example : jsonParse "  [1, -2.5e1, \"a\\nb\", null, false] " =
    some (.arr [.num (.val 1), .num (.val (-25)), .str "a\nb", .null, .bool false]) := rfl
example : jsonParse "\x7b\"a\":1,\"a\":2\x7d" = some (.obj [("a", .num (.val 2))]) := rfl
example : jsonParse "01" = none := rfl
example : jsonParse "\x7b\"a\":1,\x7d" = none := rfl
example : extractJSON "\x7b\"a\": \x7b\"b\": 2\x7d\x7d" =
    some (.obj [("a", .obj [("b", .num (.val 2))])]) := rfl
example : extractJSON "xx \x7d \x7b\"a\":1" = none := rfl
example : extractJSON "junk \x7b\"a\":1\x7d tail" = some (.obj [("a", .num (.val 1))]) := rfl

example : closeHandler (some 0) "\x7b\"ok\": false, \"error\": \"boom\"\x7d" "" =
    .rejected (.logical (some 0) (.str "boom")
      (.obj [("ok", .bool false), ("error", .str "boom")]) "") := rfl
example : closeHandler (some 0) "\x7b\"ok\": true, \"x\": 1\x7d" "d" =
    .resolved (.obj [("ok", .bool true), ("x", .num (.val 1))]) "d" := rfl
example : closeHandler (some 0) "null" "" =
    .rejected (.invalidJson (some 0) "null" "") := rfl
example : closeHandler (some 0) "false" "" =
    .rejected (.invalidJson (some 0) "false" "") := rfl
example : closeHandler (some 0) "0" "" =
    .rejected (.invalidJson (some 0) "0" "") := rfl
example : closeHandler (some 0) "\"\"" "" =
    .rejected (.invalidJson (some 0) "\"\"" "") := rfl
example : runPythonEvents "\x7b\"ok\":true\x7d" "" (invocationTrace 120001 (some 0)) =
    some (.rejected .timeoutKill) := rfl
example : runPythonEvents "" "" (invocationTrace 50 (some 0)) =
    some (.rejected (.invalidJson (some 0) "" "")) := rfl
example : runPythonEvents "x" "" [.procError "spawn python ENOENT", .timerFire] =
    some (.rejected (.spawnFail "spawn python ENOENT")) := rfl

example : parseFloatStr "12.5" = .val (25 / 2) := by decide
example : parseFloatStr "300" = .val 300 := by decide
example : jsParseFloat (.num (.val 300)) = .val 300 := by decide
example : parseFloatStr "abc" = .nan := by decide
example : parseFloatStr "  -2.5e2xyz" = .val (-250) := by decide
example : strToNumberChars "12.5".data = .val (25 / 2) := by decide
example : strToNumberChars "".data = .val 0 := by decide
example : strToNumberChars "0x10".data = .val 16 := by decide
example : strToNumberChars "12abc".data = .nan := by decide
example : jsIsNaN (.str "12.5") = false := by decide
example : jsIsNaN (.str "hello") = true := by decide
example : jsIsNaN .undefined = true := by decide
example : jsIsNaN .null = false := by decide

/-
Lemma layer: association-list facts about setField / applySpread, used to
reason about the object literal plus spread in normalizeOne.
-/

lemma lookup_overwrite_eq (fs : List (String × JVal)) (k : String) (v : JVal)
    (h : fs.any (fun p => p.1 = k) = true) :
    lookupField (fs.map (fun p => if p.1 = k then (k, v) else p)) k = some v := by
  induction fs with
  | nil => simp at h
  | cons a rest ih =>
    by_cases ha : a.1 = k
    · simp [lookupField, ha]
    · have h' : rest.any (fun p => p.1 = k) = true := by
        simpa [List.any_cons, ha] using h
      simp [lookupField, ha, ih h']

lemma lookup_overwrite_ne (fs : List (String × JVal)) (k : String) (v : JVal)
    (k' : String) (h : k' ≠ k) :
    lookupField (fs.map (fun p => if p.1 = k then (k, v) else p)) k' =
      lookupField fs k' := by
  induction fs with
  | nil => simp [lookupField]
  | cons a rest ih =>
    by_cases ha : a.1 = k
    · have hk : ¬ (k = k') := fun e => h e.symm
      have ha' : ¬ (a.1 = k') := by rw [ha]; exact hk
      simp [lookupField, ha, hk, ha', ih]
    · by_cases hb : a.1 = k'
      · simp [lookupField, ha, hb, h]
      · simp [lookupField, ha, hb, ih]

lemma lookupField_append_of_none (fs gs : List (String × JVal)) (k : String)
    (h : lookupField fs k = none) :
    lookupField (fs ++ gs) k = lookupField gs k := by
  induction fs with
  | nil => simp [lookupField]
  | cons a rest ih =>
    by_cases ha : a.1 = k
    · simp [lookupField, ha] at h
    · simp only [lookupField, ha, if_false, List.cons_append] at h ⊢
      simp [lookupField, ha]
      exact ih h

lemma lookupField_append_of_some (fs gs : List (String × JVal)) (k : String)
    (w : JVal) (h : lookupField fs k = some w) :
    lookupField (fs ++ gs) k = some w := by
  induction fs with
  | nil => simp [lookupField] at h
  | cons a rest ih =>
    by_cases ha : a.1 = k
    · simp [lookupField, ha] at h ⊢; exact h
    · simp [lookupField, ha] at h ⊢; exact ih h

lemma lookupField_eq_none_iff (fs : List (String × JVal)) (k : String) :
    lookupField fs k = none ↔ k ∉ keysOf fs := by
  induction fs with
  | nil => simp [lookupField, keysOf]
  | cons a rest ih =>
    by_cases ha : a.1 = k
    · simp [lookupField, keysOf, ha]
    · have : ¬ (k = a.1) := fun e => ha e.symm
      simp [lookupField, keysOf, ha, this, ih]

lemma lookupField_setField_self (fs : List (String × JVal)) (k : String) (v : JVal) :
    lookupField (setField fs k v) k = some v := by
  unfold setField
  split
  · exact lookup_overwrite_eq fs k v (by assumption)
  · rename_i h
    have hnone : lookupField fs k = none := by
      rw [lookupField_eq_none_iff]
      intro hk
      apply h
      rw [List.any_eq_true]
      rcases List.mem_map.mp hk with ⟨p, hp, he⟩
      exact ⟨p, hp, by simp [he]⟩
    rw [lookupField_append_of_none _ _ _ hnone]
    simp [lookupField]

lemma lookupField_setField_ne (fs : List (String × JVal)) (k : String) (v : JVal)
    (k' : String) (h : k' ≠ k) :
    lookupField (setField fs k v) k' = lookupField fs k' := by
  unfold setField
  split
  · exact lookup_overwrite_ne fs k v k' h
  · cases hc : lookupField fs k' with
    | some w => rw [lookupField_append_of_some _ _ _ _ hc]
    | none =>
      rw [lookupField_append_of_none _ _ _ hc]
      have hk : ¬ (k = k') := fun e => h e.symm
      simp [lookupField, hk]

lemma applySpread_cons (base : List (String × JVal)) (p : String × JVal)
    (l : List (String × JVal)) :
    applySpread base (p :: l) = applySpread (setField base p.1 p.2) l := rfl

lemma lookupField_applySpread_notMem (l : List (String × JVal)) (base : List (String × JVal))
    (k : String) (h : k ∉ keysOf l) :
    lookupField (applySpread base l) k = lookupField base k := by
  induction l generalizing base with
  | nil => rfl
  | cons p rest ih =>
    have hp : k ≠ p.1 := by
      intro e; exact h (by simp [keysOf, e])
    have hr : k ∉ keysOf rest := by
      intro hk; exact h (by simp [keysOf] at hk ⊢; exact Or.inr hk)
    rw [applySpread_cons, ih _ hr, lookupField_setField_ne _ _ _ _ hp]

lemma lookupField_applySpread_mem (l : List (String × JVal)) (base : List (String × JVal))
    (k : String) (v : JVal) (hmem : (k, v) ∈ l) (hnd : (keysOf l).Nodup) :
    lookupField (applySpread base l) k = some v := by
  induction l generalizing base with
  | nil => cases hmem
  | cons p rest ih =>
    have h0 : keysOf (p :: rest) = p.1 :: keysOf rest := rfl
    rw [h0] at hnd
    rcases List.mem_cons.mp hmem with he | hm
    · subst he
      have h1 := (List.nodup_cons.mp hnd).1
      rw [applySpread_cons, lookupField_applySpread_notMem _ _ _ h1]
      exact lookupField_setField_self base k v
    · have hnd' := (List.nodup_cons.mp hnd).2
      rw [applySpread_cons]
      exact ih (setField base p.1 p.2) hm hnd'

lemma jsGetField_obj (fs : List (String × JVal)) (k : String) :
    jsGetField (.obj fs) k = (lookupField fs k).getD .undefined := rfl

lemma jsGetField_obj_of_notMem (fs : List (String × JVal)) (k : String)
    (h : k ∉ keysOf fs) : jsGetField (.obj fs) k = .undefined := by
  rw [jsGetField_obj, (lookupField_eq_none_iff fs k).mpr h]
  rfl

lemma jsGetField_normalizeOne_obj (now : Nat) (fs : List (String × JVal)) (k : String) :
    jsGetField (normalizeOne now (.obj fs)) k =
      (lookupField (applySpread (normBase now (.obj fs)) fs) k).getD .undefined := rfl

/-
Claim theorems.
-/

/-- Claim C1, counterexample: the claim says that for the canonical fields the
canonical resolved-and-coerced value takes precedence over the raw passthrough
value, so a raw string-valued lat should come out as the coerced number 12.5.
In fact normalizeOne spreads the raw item after the canonical fields, so the
normalized lat is the raw string "12.5", not the coerced number. -/
theorem claim_C1_counterexample :
    jsGetField (normalizeOne 0 cexItem) "lat" = .str "12.5"
    ∧ jsParseFloat (.str "12.5") = .val (25 / 2)
    ∧ jsGetField (normalizeOne 0 cexItem) "lat" ≠ .num (.val (25 / 2)) := by
  refine ⟨rfl, by decide, ?_⟩
  intro h
  rw [show jsGetField (normalizeOne 0 cexItem) "lat" = .str "12.5" from rfl] at h
  exact absurd h (by simp)

/-- Claim C1, amended: for every input item that is a non-null object (with
the JavaScript invariant of distinct keys), the normalizer's output preserves
every original field with its raw value — the raw passthrough value takes
precedence over the canonical resolved-and-coerced value — and a canonical
field carries its canonical resolved-and-coerced value only when the raw item
has no field of that name. -/
theorem claim_C1_normalize_field_precedence (now : Nat) (fs : List (String × JVal))
    (hnd : (keysOf fs).Nodup) :
    (∀ k v, (k, v) ∈ fs → jsGetField (normalizeOne now (.obj fs)) k = v)
    ∧ ("id" ∉ keysOf fs → jsGetField (normalizeOne now (.obj fs)) "id" =
        nullish (jsGetField (.obj fs) "id") (nullish (jsGetField (.obj fs) "sub_id")
          (nullish (jsGetField (.obj fs) "subId") (.str ("temp_" ++ Nat.repr now)))))
    ∧ ("lat" ∉ keysOf fs → jsGetField (normalizeOne now (.obj fs)) "lat" =
        .num (jsParseFloat (nullish (jsGetField (.obj fs) "lat")
          (jsGetField (.obj fs) "latitude"))))
    ∧ ("lon" ∉ keysOf fs → jsGetField (normalizeOne now (.obj fs)) "lon" =
        .num (jsParseFloat (nullish (jsGetField (.obj fs) "lon")
          (nullish (jsGetField (.obj fs) "lng") (jsGetField (.obj fs) "longitude")))))
    ∧ ("raio_m" ∉ keysOf fs → jsGetField (normalizeOne now (.obj fs)) "raio_m" =
        .num (jsParseFloat (nullish (jsGetField (.obj fs) "raio_m")
          (nullish (jsGetField (.obj fs) "raio")
            (nullish (jsGetField (.obj fs) "radius_m") (.num (.val 300))))))) := by
  refine ⟨?_, ?_, ?_, ?_, ?_⟩
  · intro k v hm
    rw [jsGetField_normalizeOne_obj, lookupField_applySpread_mem fs _ k v hm hnd]
    rfl
  · intro h
    rw [jsGetField_normalizeOne_obj, lookupField_applySpread_notMem fs _ _ h]
    rfl
  · intro h
    rw [jsGetField_normalizeOne_obj, lookupField_applySpread_notMem fs _ _ h]
    rfl
  · intro h
    rw [jsGetField_normalizeOne_obj, lookupField_applySpread_notMem fs _ _ h]
    rfl
  · intro h
    rw [jsGetField_normalizeOne_obj, lookupField_applySpread_notMem fs _ _ h]
    rfl

/-- Claim C1, witness: a raw field present in the input survives into the
output with its raw value. -/
theorem claim_C1_witness :
    jsGetField (normalizeOne 0 (.obj [("lat", JVal.str "9")])) "lat" = JVal.str "9" :=
  (claim_C1_normalize_field_precedence 0 [("lat", JVal.str "9")] (by decide)).1
    "lat" (.str "9") (by simp)

/-- Claim C8: for every valid single item — an object whose lat and lon are
given as finite numbers (directly or, when the field is absent, through an
alias coercing to a finite number) — containing none of the accepted
radius-like fields (raio_m, raio, radius_m), normalize produces an item whose
lat and lon are finite numbers and whose radius field raio_m equals 300. -/
theorem claim_C8_normalize_defaults (now : Nat) (fs : List (String × JVal))
    (hnd : (keysOf fs).Nodup)
    (h1 : "raio_m" ∉ keysOf fs) (h2 : "raio" ∉ keysOf fs) (h3 : "radius_m" ∉ keysOf fs)
    (hlat : (∃ q : ℚ, ("lat", JVal.num (.val q)) ∈ fs) ∨
      ("lat" ∉ keysOf fs ∧ ∃ q : ℚ, jsParseFloat (jsGetField (.obj fs) "latitude") = .val q))
    (hlon : (∃ q : ℚ, ("lon", JVal.num (.val q)) ∈ fs) ∨
      ("lon" ∉ keysOf fs ∧ ∃ q : ℚ, jsParseFloat (nullish (jsGetField (.obj fs) "lng")
        (jsGetField (.obj fs) "longitude")) = .val q)) :
    (∃ q : ℚ, jsGetField (normalizeOne now (.obj fs)) "lat" = .num (.val q))
    ∧ (∃ q : ℚ, jsGetField (normalizeOne now (.obj fs)) "lon" = .num (.val q))
    ∧ jsGetField (normalizeOne now (.obj fs)) "raio_m" = .num (.val 300) := by
  refine ⟨?_, ?_, ?_⟩
  · rcases hlat with ⟨q, hm⟩ | ⟨habs, q, hpf⟩
    · refine ⟨q, ?_⟩
      rw [jsGetField_normalizeOne_obj, lookupField_applySpread_mem fs _ _ _ hm hnd]
      rfl
    · refine ⟨q, ?_⟩
      rw [jsGetField_normalizeOne_obj, lookupField_applySpread_notMem fs _ _ habs]
      have hu : jsGetField (JVal.obj fs) "lat" = .undefined :=
        jsGetField_obj_of_notMem fs "lat" habs
      rw [show lookupField (normBase now (JVal.obj fs)) "lat"
            = some (.num (jsParseFloat (nullish (jsGetField (JVal.obj fs) "lat")
                (jsGetField (JVal.obj fs) "latitude")))) from rfl]
      rw [hu]
      rw [show nullish JVal.undefined (jsGetField (JVal.obj fs) "latitude")
            = jsGetField (JVal.obj fs) "latitude" from rfl]
      rw [hpf]
      rfl
  · rcases hlon with ⟨q, hm⟩ | ⟨habs, q, hpf⟩
    · refine ⟨q, ?_⟩
      rw [jsGetField_normalizeOne_obj, lookupField_applySpread_mem fs _ _ _ hm hnd]
      rfl
    · refine ⟨q, ?_⟩
      rw [jsGetField_normalizeOne_obj, lookupField_applySpread_notMem fs _ _ habs]
      have hu : jsGetField (JVal.obj fs) "lon" = .undefined :=
        jsGetField_obj_of_notMem fs "lon" habs
      rw [show lookupField (normBase now (JVal.obj fs)) "lon"
            = some (.num (jsParseFloat (nullish (jsGetField (JVal.obj fs) "lon")
                (nullish (jsGetField (JVal.obj fs) "lng")
                  (jsGetField (JVal.obj fs) "longitude"))))) from rfl]
      rw [hu]
      rw [show nullish JVal.undefined (nullish (jsGetField (JVal.obj fs) "lng")
            (jsGetField (JVal.obj fs) "longitude"))
            = nullish (jsGetField (JVal.obj fs) "lng")
                (jsGetField (JVal.obj fs) "longitude") from rfl]
      rw [hpf]
      rfl
  · rw [jsGetField_normalizeOne_obj, lookupField_applySpread_notMem fs _ _ h1]
    have u1 := jsGetField_obj_of_notMem fs "raio_m" h1
    have u2 := jsGetField_obj_of_notMem fs "raio" h2
    have u3 := jsGetField_obj_of_notMem fs "radius_m" h3
    rw [show lookupField (normBase now (JVal.obj fs)) "raio_m"
          = some (.num (jsParseFloat (nullish (jsGetField (JVal.obj fs) "raio_m")
              (nullish (jsGetField (JVal.obj fs) "raio")
                (nullish (jsGetField (JVal.obj fs) "radius_m")
                  (.num (.val 300))))))) from rfl]
    rw [u1, u2, u3]
    rw [show nullish JVal.undefined (nullish JVal.undefined (nullish JVal.undefined
          (JVal.num (JNum.val 300)))) = JVal.num (JNum.val 300) from rfl]
    rw [show jsParseFloat (JVal.num (JNum.val 300)) = JNum.val 300 from by decide]
    rfl

/-- Claim C8, witness: a concrete valid item with numeric coordinates and no
radius-like field normalizes to finite coordinates and radius 300. -/
theorem claim_C8_witness :
    (∃ q : ℚ, jsGetField (normalizeOne 0
      (.obj [("id", JVal.str "s"), ("lat", JVal.num (.val 10)),
             ("lon", JVal.num (.val 20))])) "lat" = .num (.val q))
    ∧ (∃ q : ℚ, jsGetField (normalizeOne 0
      (.obj [("id", JVal.str "s"), ("lat", JVal.num (.val 10)),
             ("lon", JVal.num (.val 20))])) "lon" = .num (.val q))
    ∧ jsGetField (normalizeOne 0
      (.obj [("id", JVal.str "s"), ("lat", JVal.num (.val 10)),
             ("lon", JVal.num (.val 20))])) "raio_m" = .num (.val 300) :=
  claim_C8_normalize_defaults 0 _ (by decide) (by decide) (by decide) (by decide)
    (Or.inl ⟨10, by simp⟩) (Or.inl ⟨20, by simp⟩)

lemma okFlag_eq_true_iff (v : JVal) :
    okFlag v = true ↔ jsGetField v "ok" = .bool true := by
  unfold okFlag
  cases h : jsGetField v "ok"
  case bool b => cases b <;> simp
  all_goals simp

/-- Claim C4: extract follows exactly the algorithm of the spec: a direct
parse of the (whitespace-tolerant) whole text is returned when it succeeds;
otherwise the inclusive substring from the first opening brace to the last
closing brace, when the latter is strictly after the former, is parsed and
returned (none when that inner parse fails); in all remaining cases the
result is none.  Includes the two concrete examples of the spec. -/
theorem claim_C4_extract_algorithm (raw : String) (v : JVal) :
    (jsonParse raw = some v → extractJSON raw = some v)
    ∧ (jsonParse raw = none →
        ∀ f l, charIndexOf raw.data '{' = some f → charLastIndexOf raw.data '}' = some l →
          f < l → extractJSON raw = jsonParse (String.mk ((raw.data.drop f).take (l - f + 1))))
    ∧ (jsonParse raw = none →
        (∀ f l, charIndexOf raw.data '{' = some f → charLastIndexOf raw.data '}' = some l →
          ¬ f < l) → extractJSON raw = none)
    ∧ extractJSON "[warn] loading...\n\x7b\"ok\":true,\"x\":1\x7d\n" =
        some (.obj [("ok", .bool true), ("x", .num (.val 1))])
    ∧ extractJSON "plain text with no brace pair" = none := by
  refine ⟨?_, ?_, ?_, rfl, rfl⟩
  · intro h
    unfold extractJSON
    rw [h]
  · intro h f l hf hl hlt
    unfold extractJSON
    rw [h, hf, hl]
    simp [hlt]
  · intro h hno
    unfold extractJSON
    rw [h]
    cases hf : charIndexOf raw.data '{' with
    | none => rfl
    | some f =>
      cases hl : charLastIndexOf raw.data '}' with
      | none => rfl
      | some l => simp [hno f l hf hl]

/-- Claim C4, witness: a valid JSON document is returned unchanged by the
direct-parse step. -/
theorem claim_C4_witness :
    jsonParse "\x7b\"a\":1\x7d" = some (.obj [("a", .num (.val 1))])
    ∧ extractJSON "\x7b\"a\":1\x7d" = some (.obj [("a", .num (.val 1))]) :=
  ⟨rfl, (claim_C4_extract_algorithm "\x7b\"a\":1\x7d" (.obj [("a", .num (.val 1))])).1 rfl⟩

/-- Claim C10: extract is a total function: on every input string it returns
either a parsed document or none — in the embedding it cannot throw, matching
the try/catch structure of the source — including on the empty string, on
strings with unbalanced braces, and on brace-delimited substrings that are
not valid JSON. -/
theorem claim_C10_extract_total (raw : String) :
    ((∃ v, extractJSON raw = some v) ∨ extractJSON raw = none)
    ∧ extractJSON "" = none
    ∧ extractJSON "\x7b\x7b" = none
    ∧ extractJSON "\x7bnot json\x7d" = none
    ∧ extractJSON "\x7d\x7b" = none := by
  refine ⟨?_, rfl, rfl, rfl, rfl⟩
  cases h : extractJSON raw with
  | some v => exact Or.inl ⟨v, rfl⟩
  | none => exact Or.inr rfl

/-- Claim C2, counterexample: the claim says the failure surfaces the
document's embedded error message whenever it is present; but for exit code 0
with output {"ok": false, "error": ""} the embedded message is present (the
empty string) and the code surfaces the generic fallback instead, because the
source tests truthiness (parsed.error || ...), not presence. -/
theorem claim_C2_counterexample :
    closeHandler (some 0) "\x7b\"ok\": false, \"error\": \"\"\x7d" "" =
      .rejected (.logical (some 0) (.str "Python logical error")
        (.obj [("ok", .bool false), ("error", .str "")]) "")
    ∧ jsGetField (.obj [("ok", .bool false), ("error", .str "")]) "error" = .str ""
    ∧ (JVal.str "Python logical error") ≠ (JVal.str "") := by
  refine ⟨rfl, rfl, ?_⟩
  intro h
  exact absurd h (by simp)

/-- Claim C2, amended: for every worker invocation whose child exits before
the timeout and whose output yields a parsed (truthy) document, the
invocation succeeds iff the exit code is 0 and the document's success flag is
explicitly true; on success the result is the document plus diagnostics, and
otherwise it fails with the document's embedded error message when that
message is present and truthy (in particular exit 0 with
{"ok": false, "error": "boom"} fails with "boom"), or the generic fallback
otherwise, together with the full document and diagnostics. -/
theorem claim_C2_exit_correlation (code : Option Int) (out std : String) (v : JVal)
    (hex : extractJSON (jsTrim out) = some v) (htr : truthy v = true) :
    (closeHandler code out std = .resolved v std ↔
      (code = some 0 ∧ jsGetField v "ok" = .bool true))
    ∧ (¬ (code = some 0 ∧ jsGetField v "ok" = .bool true) →
        closeHandler code out std = .rejected (.logical code
          (jsOr (jsGetField v "error") (.str "Python logical error")) v std))
    ∧ closeHandler (some 0) "\x7b\"ok\": false, \"error\": \"boom\"\x7d" "" =
        .rejected (.logical (some 0) (.str "boom")
          (.obj [("ok", .bool false), ("error", .str "boom")]) "") := by
  have hbranch : closeHandler code out std =
      (if code = some 0 ∧ okFlag v = true then Settlement.resolved v std
       else .rejected (.logical code
         (jsOr (jsGetField v "error") (.str "Python logical error")) v std)) := by
    unfold closeHandler
    rw [hex]
    simp [htr]
  refine ⟨?_, ?_, rfl⟩
  · rw [hbranch]
    by_cases hc : code = some 0 ∧ okFlag v = true
    · rw [if_pos hc]
      simp [hc.1, (okFlag_eq_true_iff v).mp hc.2]
    · rw [if_neg hc]
      constructor
      · intro h
        exact absurd h (by simp)
      · intro hc2
        exact absurd ⟨hc2.1, (okFlag_eq_true_iff v).mpr hc2.2⟩ hc
  · intro hnc
    rw [hbranch, if_neg (fun hc => hnc ⟨hc.1, (okFlag_eq_true_iff v).mp hc.2⟩)]

/-- Claim C2, witness: exit 0 with a truthy ok document resolves with the
document and diagnostics. -/
theorem claim_C2_witness :
    closeHandler (some 0) "\x7b\"ok\":true,\"x\":1\x7d" "d" =
      .resolved (.obj [("ok", .bool true), ("x", .num (.val 1))]) "d" :=
  (claim_C2_exit_correlation (some 0) "\x7b\"ok\":true,\"x\":1\x7d" "d"
    (.obj [("ok", .bool true), ("x", .num (.val 1))]) rfl rfl).1.mpr ⟨rfl, rfl⟩

/-- Claim C9: when the child exits normally, the invalid-output rejection
("Invalid JSON output from Python", carrying the raw output and diagnostics)
is produced exactly when the extractor's result is falsy — none, or a
document that is null, false, 0 or the empty string — not only when no
document can be parsed at all. -/
theorem claim_C9_invalid_output (code : Option Int) (out std : String) :
    (closeHandler code out std = .rejected (.invalidJson code out std) ↔
      jsFalsyOpt (extractJSON (jsTrim out)) = true)
    ∧ closeHandler (some 0) "null" "" = .rejected (.invalidJson (some 0) "null" "")
    ∧ closeHandler (some 0) "false" "" = .rejected (.invalidJson (some 0) "false" "")
    ∧ closeHandler (some 0) "0" "" = .rejected (.invalidJson (some 0) "0" "")
    ∧ closeHandler (some 0) "\"\"" "" = .rejected (.invalidJson (some 0) "\"\"" "") := by
  refine ⟨?_, rfl, rfl, rfl, rfl⟩
  unfold closeHandler
  cases hx : extractJSON (jsTrim out) with
  | none => simp [jsFalsyOpt]
  | some v =>
    cases ht : truthy v with
    | false => simp [jsFalsyOpt, ht]
    | true =>
      simp only [jsFalsyOpt, ht]
      rw [if_neg (by simp)]
      split
      · simp
      · simp

/-- Claim C9, witness: exit code 0 with output "null" parses to a falsy
document and is rejected as invalid output. -/
theorem claim_C9_witness :
    jsFalsyOpt (extractJSON (jsTrim "null")) = true
    ∧ closeHandler (some 0) "null" "x" = .rejected (.invalidJson (some 0) "null" "x") :=
  ⟨rfl, (claim_C9_invalid_output (some 0) "null" "x").1.mpr rfl⟩

/-- Claim C3: an invocation whose child would only close after the 120 s
budget has the timer fire first: the promise settles as the distinct TIMEOUT
rejection, never as a success, regardless of the output already buffered,
and the later close event of the killed child cannot override it. -/
theorem claim_C3_timeout (closeTimeMs : Nat) (exitCode : Option Int) (out std : String)
    (h : closeTimeMs > TIMEOUT_MS) :
    runPythonEvents out std (invocationTrace closeTimeMs exitCode) =
      some (.rejected .timeoutKill)
    ∧ ∀ p d, runPythonEvents out std (invocationTrace closeTimeMs exitCode) ≠
        some (.resolved p d) := by
  have ht : invocationTrace closeTimeMs exitCode = [.timerFire, .procClose none] := by
    unfold invocationTrace
    rw [if_pos h]
  constructor
  · rw [ht]
    rfl
  · intro p d
    rw [ht]
    intro he
    rw [show runPythonEvents out std [.timerFire, .procClose none] =
      some (.rejected .timeoutKill) from rfl] at he
    exact absurd he (by simp)

/-- Claim C3, witness: one millisecond past the budget, even a perfect
success document already buffered cannot make the invocation succeed. -/
theorem claim_C3_witness :
    120001 > TIMEOUT_MS
    ∧ runPythonEvents "\x7b\"ok\":true\x7d" "" (invocationTrace 120001 (some 0)) =
        some (.rejected .timeoutKill) :=
  ⟨by decide, (claim_C3_timeout 120001 (some 0) "\x7b\"ok\":true\x7d" "" (by decide)).1⟩

lemma foldl_settled_sticky (out std : String) (s : Settlement) :
    ∀ (evs : List PEvent) (st : PromiseState), st.settled = some s →
      ((evs.foldl (stepEvent out std) st).settled = some s) := by
  intro evs
  induction evs with
  | nil => intro st h; exact h
  | cons e rest ih =>
    intro st h
    rw [List.foldl_cons]
    apply ih
    cases e with
    | timerFire =>
      by_cases hta : st.timerActive
      · simp [stepEvent, hta, h, firstSettle]
      · simp [stepEvent, hta, h]
    | procError m => simp [stepEvent, h, firstSettle]
    | procClose c => simp [stepEvent, h, firstSettle]

/-- Claim C7: when the spawn-error event fires first (the child could not be
created), the invocation settles immediately with the underlying system
error; the timeout is cancelled by the error handler, so no sequence of later
events — including a timer firing — can change the settlement, and the
failure is not classified as TIMEOUT. -/
theorem claim_C7_spawn_error (m : String) (rest : List PEvent) (out std : String) :
    runPythonEvents out std (.procError m :: rest) = some (.rejected (.spawnFail m))
    ∧ runPythonEvents out std (.procError m :: rest) ≠ some (.rejected .timeoutKill) := by
  have h1 : runPythonEvents out std (.procError m :: rest) =
      some (.rejected (.spawnFail m)) := by
    unfold runPythonEvents
    rw [List.foldl_cons]
    exact foldl_settled_sticky out std _ rest _ rfl
  refine ⟨h1, ?_⟩
  rw [h1]
  intro he
  exact absurd he (by simp)

lemma truthy_str_append (s t : String) (h : s.data ≠ []) :
    truthy (.str (s ++ t)) = true := by
  simp only [truthy, String.data_append]
  cases hs : s.data with
  | nil => exact absurd hs h
  | cons c l => rfl

lemma catchToResponse_thrown (m : String) (hm : truthy (.str m) = true) :
    catchToResponse (.thrown m) = .failure (.str "Internal Server Error") (.str m) := by
  unfold catchToResponse errProp stderrProp messageProp selfJVal
  rw [show jsOr JVal.undefined (JVal.str "Internal Server Error")
      = JVal.str "Internal Server Error" from rfl]
  rw [show jsOr JVal.undefined (jsOr (JVal.str m) (JVal.obj []))
      = jsOr (JVal.str m) (JVal.obj []) from rfl]
  unfold jsOr
  rw [if_pos hm]

/-- Claim C5: an empty-array payload is rejected without invoking the worker,
and a normalized batch whose first offending item has a non-numeric (NaN) lat
or lon is rejected without invoking the worker, with the client-visible
details naming that item's id; in both cases the invocation count is zero. -/
theorem claim_C5_validation (now : Nat) (worker : JVal → Settlement) (body : JVal)
    (item : JVal)
    (hfind : (toBatch (normalizePayload now body)).find? badCoords = some item) :
    scanHandler now worker body =
      (.failure (.str "Internal Server Error")
        (.str ("Coordenadas inválidas para ID: " ++ jsToString (jsGetField item "id"))), 0)
    ∧ (∀ w2 : JVal → Settlement, scanHandler now w2 (.arr []) =
        (.failure (.str "Internal Server Error") (.str "Payload vazio"), 0)) := by
  constructor
  · have hne : toBatch (normalizePayload now body) ≠ [] := by
      intro h0
      rw [h0] at hfind
      exact absurd hfind (by simp)
    unfold scanHandler
    rw [if_neg (fun h0 => hne (List.length_eq_zero.mp h0))]
    simp only [hfind]
    rw [catchToResponse_thrown _ (truthy_str_append "Coordenadas inválidas para ID: " _
      (by decide))]
  · intro w2
    rfl

/-- Claim C5, witness: a batch with one item whose lat does not coerce to a
number is rejected naming that item's id, with zero worker invocations. -/
theorem claim_C5_witness :
    (toBatch (normalizePayload 0 (.arr [.obj [("id", JVal.str "s1"),
      ("lat", JVal.str "abc"), ("lon", JVal.num (.val 2))]]))).find? badCoords =
      some (.obj [("id", JVal.str "s1"), ("lat", JVal.str "abc"),
        ("lon", JVal.num (.val 2)), ("raio_m", JVal.num (.val 300))])
    ∧ scanHandler 0 (fun _ => .resolved .null "") (.arr [.obj [("id", JVal.str "s1"),
        ("lat", JVal.str "abc"), ("lon", JVal.num (.val 2))]]) =
      (.failure (.str "Internal Server Error")
        (.str "Coordenadas inválidas para ID: s1"), 0) := by
  refine ⟨rfl, ?_⟩
  have h := (claim_C5_validation 0 (fun _ => .resolved .null "")
    (.arr [.obj [("id", JVal.str "s1"), ("lat", JVal.str "abc"),
      ("lon", JVal.num (.val 2))]])
    (.obj [("id", JVal.str "s1"), ("lat", JVal.str "abc"),
      ("lon", JVal.num (.val 2)), ("raio_m", JVal.num (.val 300))]) rfl).1
  rw [h]
  rfl

/-- Claim C6: normalization of a batch preserves item count and order (the
i-th normalized item is the normalization of the i-th input item), and on a
successful invocation the extracted document is forwarded unchanged as the
response data field, with exactly one worker invocation. -/
theorem claim_C6_roundtrip (now : Nat) (xs : List JVal) (worker : JVal → Settlement)
    (body : JVal) (parsed : JVal) (std : String)
    (hne : toBatch (normalizePayload now body) ≠ [])
    (hval : (toBatch (normalizePayload now body)).find? badCoords = none)
    (hw : worker (normalizePayload now body) = .resolved parsed std) :
    normalizePayload now (.arr xs) = .arr (xs.map (normalizeOne now))
    ∧ (xs.map (normalizeOne now)).length = xs.length
    ∧ (∀ i : Nat, (xs.map (normalizeOne now))[i]? = (xs[i]?).map (normalizeOne now))
    ∧ scanHandler now worker body = (.success parsed, 1) := by
  refine ⟨rfl, List.length_map xs _, fun i => List.getElem?_map _ _ _, ?_⟩
  unfold scanHandler
  rw [if_neg (fun h0 => hne (List.length_eq_zero.mp h0))]
  rw [hval, hw]

/-- Claim C6, witness: a valid one-item batch reaches the worker and its
resolved document appears verbatim as the response data, with exactly one
invocation. -/
theorem claim_C6_witness :
    scanHandler 0 (fun _ => .resolved (.obj [("ok", .bool true)]) "")
      (.arr [.obj [("id", JVal.str "a"), ("lat", JVal.num (.val 1)),
        ("lon", JVal.num (.val 2))]]) =
      (.success (.obj [("ok", .bool true)]), 1) :=
  (claim_C6_roundtrip 0 [] (fun _ => .resolved (.obj [("ok", .bool true)]) "")
    (.arr [.obj [("id", JVal.str "a"), ("lat", JVal.num (.val 1)),
      ("lon", JVal.num (.val 2))]])
    (.obj [("ok", .bool true)]) "" (List.cons_ne_nil _ _) rfl rfl).2.2.2

/-- Claim C7, witness: a concrete spawn failure settles with the system
error even though the timer would have fired later. -/
theorem claim_C7_witness :
    runPythonEvents "" "" [.procError "spawn python ENOENT", .timerFire] =
      some (.rejected (.spawnFail "spawn python ENOENT")) :=
  (claim_C7_spawn_error "spawn python ENOENT" [.timerFire] "" "").1

/-- Claim C10, witness: the totality theorem evaluated at the empty string. -/
theorem claim_C10_witness : extractJSON "" = none :=
  (claim_C10_extract_total "").2.1
